import Mathlib

/-!
Verification of the session/ticket coordination engine in `src/bot.py`
(shallow embedding).  Python dicts are embedded as association lists,
timestamps and money as `ℚ`, and the chat transport as explicit oracles.
Python truthiness on optional integers (`if value:`) is embedded
faithfully: `None` and `0` are both falsy.
-/

set_option autoImplicit false

namespace Allat50

/-! ## Association-list helpers (embedding of Python dict operations) -/

/-- Lookup of a key in an association list (embedding of `dict.get`). -/
def lookupKey {α : Type} [DecidableEq α] {β : Type} : List (α × β) → α → Option β
  | [], _ => none
  | (k, v) :: rest, a => if a = k then some v else lookupKey rest a

/-- Key assignment (embedding of `d[k] = v`): replaces the first entry with
the given key, or appends a new entry. -/
def setKey {α : Type} [DecidableEq α] {β : Type} : List (α × β) → α → β → List (α × β)
  | [], a, v => [(a, v)]
  | (k, w) :: rest, a, v => if a = k then (a, v) :: rest else (k, w) :: setKey rest a v

/-- Key removal (embedding of `d.pop(k, None)`): drops the first entry with
the given key. -/
def removeKey {α : Type} [DecidableEq α] {β : Type} : List (α × β) → α → List (α × β)
  | [], _ => []
  | (k, w) :: rest, a => if a = k then rest else (k, w) :: removeKey rest a

/-- Python truthiness of an optional integer: `None` and `0` are falsy. -/
def pyTruthyInt : Option Int → Bool
  | none => false
  | some n => n != 0

/-- Python `int()` applied to a non-negative rational: truncation toward
zero, which on non-negative values is the floor. -/
def pyInt (x : ℚ) : Int :=
  if 0 ≤ x then ⌊x⌋ else -⌊-x⌋

/-- Python `round(x, 2)` (banker's rounding to two decimals), used for the
Duff cut computation `round(profit * DUFF_CUT_RATE, 2)`. -/
def pyRound2 (x : ℚ) : ℚ :=
  let y := x * 100
  let f : Int := ⌊y⌋
  let r := y - f
  (if r < 1 / 2 then f else if 1 / 2 < r then f + 1 else if Even f then f else f + 1) / 100

/-- Python `str.strip()`: whitespace removed from both ends, implemented
over the character list so that proofs can evaluate it. -/
def strStrip (s : String) : String :=
  ⟨((s.data.dropWhile Char.isWhitespace).reverse.dropWhile Char.isWhitespace).reverse⟩

/-- Python `str.lower()` (ASCII case mapping, which covers the labels used
here), implemented over the character list. -/
def strLower (s : String) : String :=
  ⟨s.data.map Char.toLower⟩

/-! ## C10 — `load_json_file` -/

/-- JSON values, as far as `json.load` distinguishes them. -/
inductive Json where
  | obj : List (String × Json) → Json
  | arr : List Json → Json
  | str : String → Json
  | num : Int → Json
  | boolean : Bool → Json
  | null : Json

/-- State of a persisted dataset file as seen by `load_json_file`:
absent, unparseable, or parsed to a JSON value. -/
inductive FileContent where
  | missing : FileContent
  | invalid : FileContent
  | parsed : Json → FileContent

/-- Whether a JSON value is an object (`isinstance(data, dict)`). -/
def Json.isObj : Json → Bool
  | Json.obj _ => true
  | _ => false

/-- Embedding of `load_json_file`: returns `{}` for a missing file, a JSON
parse failure, or a parsed non-object value; returns the mapping otherwise.
The Lean function is total, mirroring that the Python function catches
`json.JSONDecodeError` and never raises in these cases. -/
def load_json_file : FileContent → List (String × Json)
  | FileContent.missing => []
  | FileContent.invalid => []
  | FileContent.parsed (Json.obj m) => m
  | FileContent.parsed _ => []

/-! ## C4 — durable-store save paths -/

/-- The three persisted datasets named by the spec. -/
inductive StorePath where
  | users : StorePath
  | sessions : StorePath
  | ticketRecords : StorePath
deriving DecidableEq

/-- File-system operations a save can perform on a dataset's backing file. -/
inductive FileOp where
  | backupCopy : StorePath → FileOp
  | writeTmp : StorePath → FileOp
  | renameTmpOverOriginal : StorePath → FileOp
  | writeInPlace : StorePath → FileOp
deriving DecidableEq

/-- Embedding of `maybe_backup`: `stamps` is the `STORAGE_BACKUP` map from
path to the date it was last backed up; if the stamp for this path is
already today's, nothing happens; otherwise the stamp is recorded and, if
the backing file exists, it is copied to the `.bak` path. -/
def maybe_backup (stamps : List (StorePath × String)) (today : String) (p : StorePath)
    (onDisk : Bool) : List FileOp × List (StorePath × String) :=
  if lookupKey stamps p = some today then ([], stamps)
  else
    let stamps' := setKey stamps p today
    if onDisk then ([FileOp.backupCopy p], stamps') else ([], stamps')

/-- Embedding of `atomic_write_json`: runs `maybe_backup`, writes the new
content to the `.tmp` path, then renames the `.tmp` path over the original. -/
def atomic_write_json (stamps : List (StorePath × String)) (today : String) (p : StorePath)
    (onDisk : Bool) : List FileOp × List (StorePath × String) :=
  let bk := maybe_backup stamps today p onDisk
  (bk.1 ++ [FileOp.writeTmp p, FileOp.renameTmpOverOriginal p], bk.2)

/-- Embedding of `save_user` / `save_json(USERS_PATH, ...)`: goes through
`atomic_write_json` (the lock and background thread are not modelled). -/
def save_user_ops (stamps : List (StorePath × String)) (today : String) (onDisk : Bool) :
    List FileOp × List (StorePath × String) :=
  atomic_write_json stamps today StorePath.users onDisk

/-- Embedding of `save_profile_session` / `save_json(SESSIONS_PATH, ...)`. -/
def save_profile_session_ops (stamps : List (StorePath × String)) (today : String)
    (onDisk : Bool) : List FileOp × List (StorePath × String) :=
  atomic_write_json stamps today StorePath.sessions onDisk

/-- Embedding of `save_ticket_records`: opens the backing file for writing
and dumps the JSON directly into it — no backup, no temp file, no rename. -/
def save_ticket_records_ops : List FileOp :=
  [FileOp.writeInPlace StorePath.ticketRecords]

/-- The Durable Store contract of spec §4.1 for one save, stated on the
operation trace: the new content goes to a temporary path which is renamed
over the original, and the backing file is never written in place. -/
def followsDurableContract (p : StorePath) (ops : List FileOp) : Prop :=
  FileOp.writeTmp p ∈ ops ∧ FileOp.renameTmpOverOriginal p ∈ ops ∧
    FileOp.writeInPlace p ∉ ops

instance (p : StorePath) (ops : List FileOp) : Decidable (followsDurableContract p ops) := by
  unfold followsDurableContract
  infer_instance

/-! ## C8 — ticket-id allocation (`next_ticket_id` / `save_config`) -/

/-- The ticket counter: the in-memory global `ticket_counter` and the
`ticketCounter` value persisted in `config.json`. -/
structure CounterState where
  counter : Int
  persisted : Int
deriving DecidableEq

/-- Embedding of `save_config` restricted to the ticket counter: writes the
in-memory counter to the persisted configuration. -/
def save_config (s : CounterState) : CounterState :=
  { s with persisted := s.counter }

/-- Embedding of `next_ticket_id`: increments the global counter, persists
the configuration, and returns the new counter value. -/
def next_ticket_id (s : CounterState) : Int × CounterState :=
  let c := s.counter + 1
  (c, save_config { s with counter := c })

/-- Embedding of the startup read `ticket_counter = int(CONFIG.get("ticketCounter", 60))`
after a restart: the in-memory counter becomes the persisted value. -/
def reload_counter (s : CounterState) : CounterState :=
  { counter := s.persisted, persisted := s.persisted }

/-- A sequence of `next_ticket_id` allocations, returning the issued ids. -/
def allocSeq : CounterState → Nat → List Int × CounterState
  | s, 0 => ([], s)
  | s, n + 1 =>
    let p := next_ticket_id s
    let q := allocSeq p.2 n
    (p.1 :: q.1, q.2)

/-! ## C5, C6 — rate limiter and the limited branch of `text_handler` -/

/-- Rate-limit configuration (`rateLimit.windowMinutes` / `rateLimit.maxTickets`). -/
structure RateCfg where
  windowMinutes : ℚ
  maxTickets : Int
deriving DecidableEq

/-- Embedding of `RATE_LIMIT_SECONDS = max(rate_limit_window, 0) * 60`. -/
def rateLimitSeconds (cfg : RateCfg) : ℚ := max cfg.windowMinutes 0 * 60

/-- Embedding of `RATE_LIMIT_ENABLED = RATE_LIMIT_SECONDS > 0 and rate_limit_max > 0`. -/
def rateLimitEnabled (cfg : RateCfg) : Bool :=
  decide (0 < rateLimitSeconds cfg) && decide (0 < cfg.maxTickets)

/-- Result of a rate-limit check: allowed, or limited with a retry-after in
seconds. -/
inductive RateResult where
  | allowed : RateResult
  | limited : ℚ → RateResult
deriving DecidableEq

/-- Embedding of `check_rate_limit` for one user: takes the user's recorded
submission timestamps (`TICKET_HISTORY[user_id]`) and the current time, and
returns the decision together with the new recorded timestamps.  When the
limiter is enabled it prunes timestamps older than the window, allows (and
appends `now`) when the pruned count is below the maximum, and otherwise
limits with retry-after `history[0] + RATE_LIMIT_SECONDS - now`. -/
def check_rate_limit (cfg : RateCfg) (history : List ℚ) (now : ℚ) : RateResult × List ℚ :=
  if ¬ rateLimitEnabled cfg then (RateResult.allowed, history)
  else
    let window_start := now - rateLimitSeconds cfg
    let pruned := history.filter (fun t => window_start ≤ t)
    if cfg.maxTickets ≤ (pruned.length : Int) then
      (RateResult.limited (pruned.headD 0 + rateLimitSeconds cfg - now), pruned)
    else
      (RateResult.allowed, pruned ++ [now])

/-- Outcome of the confirmation-stage "yes" branch of `text_handler`. -/
structure ContinueYesOutcome where
  limitedMinutes : Option Int
  sessionCleared : Bool
  ticketCreated : Bool
deriving DecidableEq

/-- Embedding of the "yes" branch of `text_handler` at the `continue` stage:
runs the rate limiter; when limited it reports
`int(retry_after / 60 + 1)` minutes, resets the conversation session and
creates no ticket; otherwise it creates the ticket and resets the session. -/
def continue_yes_branch (cfg : RateCfg) (history : List ℚ) (now : ℚ) :
    ContinueYesOutcome × List ℚ :=
  match check_rate_limit cfg history now with
  | (RateResult.limited retry, h) =>
    ({ limitedMinutes := some (pyInt (retry / 60 + 1)), sessionCleared := true,
       ticketCreated := false }, h)
  | (RateResult.allowed, h) =>
    ({ limitedMinutes := none, sessionCleared := true, ticketCreated := true }, h)

/-! ## Tickets, records, and the system state (C1, C2, C3) -/

/-- One fan-out entry in a ticket's `adminMessages` list: the worker
endpoint chat and the relay message id there (`messageId` is absent only
for the synthetic fallback entry built in `forward_customer_message`). -/
structure AdminMsgEntry where
  chatId : Int
  messageId : Option Int
deriving DecidableEq

/-- In-memory ticket object (an entry of the `TICKETS` dict). -/
structure Ticket where
  chatId : Int
  category : String
  answers : List (String × String)
  status : String
  adminMessages : List AdminMsgEntry
  botKey : String
  service : String
  assignedAdminId : Option Int := none
  assignedAlias : Option String := none
  acceptedAt : Option String := none
  couponRequested : Bool := false
deriving DecidableEq

/-- Durable ledger record (an entry of the `TICKET_RECORDS` dict). -/
structure TicketRecord where
  ticketId : Int
  status : String
  createdAt : String
  chatId : Option Int := none
  service : Option String := none
  category : Option String := none
  botKey : Option String := none
  closedAt : Option String := none
  closeType : Option String := none
  closedBy : Option String := none
  remarks : Option String := none
  profit : Option ℚ := none
  duffCut : Option ℚ := none
  assignedAdminId : Option Int := none
  assignedAlias : Option String := none
  acceptedAt : Option String := none
deriving DecidableEq

/-- The mutable global state touched by ticket operations: `TICKETS`,
`TICKET_RECORDS`, `CUSTOMER_TICKETS` and `BANNED_CHAT_IDS`. -/
structure SysState where
  tickets : List (Int × Ticket)
  records : List (Int × TicketRecord)
  customerTickets : List (Int × Int)
  banned : List Int
deriving DecidableEq

/-- Embedding of `update_ticket_record`: applies the field updates when the
record exists, otherwise leaves the ledger unchanged (returning `False` in
the source). -/
def update_ticket_record (records : List (Int × TicketRecord)) (tid : Int)
    (updates : TicketRecord → TicketRecord) : List (Int × TicketRecord) :=
  match lookupKey records tid with
  | none => records
  | some r => setKey records tid (updates r)

/-- Embedding of `close_ticket_record`: when the record exists, marks it
closed, stamps `closedAt`, applies the caller's updates and returns `true`;
otherwise returns `false` and leaves the ledger unchanged. -/
def close_ticket_record (records : List (Int × TicketRecord)) (tid : Int) (now : String)
    (updates : TicketRecord → TicketRecord) : Bool × List (Int × TicketRecord) :=
  match lookupKey records tid with
  | none => (false, records)
  | some r =>
    (true, setKey records tid (updates { r with status := "closed", closedAt := some now }))

/-- Result dict of `assign_ticket`. -/
structure AssignResult where
  ok : Bool
  reason : Option String
deriving DecidableEq

/-- Embedding of the Python check `if current_owner and current_owner != admin_id`:
the current owner blocks an assignment only when it is present, non-zero
(truthy) and a different worker. -/
def ownerBlocks (owner : Option Int) (admin_id : Int) : Bool :=
  match owner with
  | none => false
  | some o => o != 0 && o != admin_id

/-- Embedding of `assign_ticket`: rejects with `not_found` when the ticket
is missing or not open; rejects with `assigned` when a different worker
already holds it; otherwise stamps owner, alias and acceptance time on the
ticket and its ledger record. -/
def assign_ticket (st : SysState) (now : String) (ticket_id admin_id : Int)
    (aliasName : String) : AssignResult × SysState :=
  match lookupKey st.tickets ticket_id with
  | none => ({ ok := false, reason := some "not_found" }, st)
  | some t =>
    if t.status ≠ "open" then ({ ok := false, reason := some "not_found" }, st)
    else if ownerBlocks t.assignedAdminId admin_id then
      ({ ok := false, reason := some "assigned" }, st)
    else
      let t' := { t with assignedAdminId := some admin_id, assignedAlias := some aliasName,
                         acceptedAt := some now }
      ({ ok := true, reason := none },
       { st with
          tickets := setKey st.tickets ticket_id t',
          records := update_ticket_record st.records ticket_id (fun r =>
            { r with assignedAdminId := some admin_id, assignedAlias := some aliasName,
                     acceptedAt := some now }) })

/-- A sequence of `assign_ticket` calls on the same ticket by a list of
(worker, alias) pairs, returning each call's `ok` flag. -/
def runAssigns (now : String) (tid : Int) : SysState → List (Int × String) → List Bool × SysState
  | st, [] => ([], st)
  | st, c :: rest =>
    let p := assign_ticket st now tid c.1 c.2
    let q := runAssigns now tid p.2 rest
    (p.1.ok :: q.1, q.2)

/-- Outcome of a `/close` attempt. -/
inductive CloseOutcome where
  | alreadyClosed : CloseOutcome
  | notFound : CloseOutcome
  | closedOk : CloseOutcome
deriving DecidableEq

/-- `DUFF_CUT_RATE = 0.25`. -/
def DUFF_CUT_RATE : ℚ := 1 / 4

/-- Embedding of `close_command` / `close_ticket_with_values` after payload
parsing: reports already-closed only when the in-memory ticket exists and
is closed; otherwise writes `admin_close` accounting into the ledger record
(failing only when the record is missing), marks the in-memory ticket
closed when present, and drops the chat's active-ticket pointer when the
chat id is truthy. -/
def close_command_core (st : SysState) (now closedBy : String) (tid : Int) (profit : ℚ)
    (remarks : String) : CloseOutcome × SysState :=
  let ticket := lookupKey st.tickets tid
  let isClosed : Bool := match ticket with
    | some t => t.status == "closed"
    | none => false
  if isClosed then (CloseOutcome.alreadyClosed, st)
  else
    let duff_cut := pyRound2 (profit * DUFF_CUT_RATE)
    let closed := close_ticket_record st.records tid now (fun r =>
      { r with closeType := some "admin_close", remarks := some remarks,
               closedBy := some closedBy, profit := some profit, duffCut := some duff_cut })
    if closed.1 then
      let tickets' := match ticket with
        | some t => setKey st.tickets tid { t with status := "closed" }
        | none => st.tickets
      let chatId : Option Int := match ticket with
        | some t => some t.chatId
        | none => (lookupKey closed.2 tid).bind (fun r => r.chatId)
      let customer' := if pyTruthyInt chatId then
          removeKey st.customerTickets (chatId.getD 0)
        else st.customerTickets
      (CloseOutcome.closedOk,
       { st with records := closed.2, tickets := tickets', customerTickets := customer' })
    else (CloseOutcome.notFound, st)

/-- Embedding of `close_ticket_callback` (the "Close ticket" button): when
the ticket is missing or already closed it only answers "Ticket already
closed"; otherwise it closes the ticket, drops the chat's active-ticket
pointer and writes a `manual_close` record. -/
def close_ticket_callback_core (st : SysState) (now closedBy : String) (tid : Int) :
    Bool × SysState :=
  match lookupKey st.tickets tid with
  | none => (false, st)
  | some t =>
    if t.status = "closed" then (false, st)
    else
      let closed := close_ticket_record st.records tid now (fun r =>
        { r with closeType := some "manual_close", closedBy := some closedBy })
      (true,
       { st with
          tickets := setKey st.tickets tid { t with status := "closed" },
          customerTickets := removeKey st.customerTickets t.chatId,
          records := closed.2 })

/-- Embedding of `ban_ticket_callback` (the "Ban customer" button): when the
ticket exists (no status check in the source), adds the ticket's origin
chat to the banned set, closes that ticket, drops the chat's active-ticket
pointer and writes a `banned` record.  `save_config` persistence of the
banned set is not modelled. -/
def ban_ticket_callback_core (st : SysState) (now closedBy : String) (tid : Int) :
    Bool × SysState :=
  match lookupKey st.tickets tid with
  | none => (false, st)
  | some t =>
    let banned' := if t.chatId ∈ st.banned then st.banned else st.banned ++ [t.chatId]
    let closed := close_ticket_record st.records tid now (fun r =>
      { r with closeType := some "banned", closedBy := some closedBy })
    (true,
     { st with
        banned := banned',
        tickets := setKey st.tickets tid { t with status := "closed" },
        customerTickets := removeKey st.customerTickets t.chatId,
        records := closed.2 })

/-- Embedding of `close_tickets_for_chat` (used by the `/ban` command): every
open ticket whose origin is the given chat is closed and its record updated;
dict iteration is modelled as a map over the association list (dict keys are
unique). -/
def close_tickets_for_chat (st : SysState) (now : String) (chat : Int)
    (closeType closedBy : String) : SysState :=
  let targets := (st.tickets.filter (fun p => p.2.chatId = chat ∧ p.2.status = "open")).map
    Prod.fst
  { st with
      tickets := st.tickets.map (fun p =>
        if p.2.chatId = chat ∧ p.2.status = "open" then (p.1, { p.2 with status := "closed" })
        else p),
      records := st.records.map (fun q =>
        if q.1 ∈ targets then
          (q.1, { q.2 with status := "closed", closedAt := some now,
                           closeType := some closeType, closedBy := some closedBy })
        else q),
      customerTickets := removeKey st.customerTickets chat }

/-! ## C7 — customer-message relay (`forward_customer_message`) -/

/-- A value of the reply-correlation index `ADMIN_TICKET_MESSAGES`. -/
structure RelayEntryVal where
  ticketId : Int
  botKey : String
deriving DecidableEq

/-- Target selection of `forward_customer_message` when the assignment is
not truthy: the ticket's retained fan-out entries, or, when that list is
empty, one synthetic entry per configured worker endpoint. -/
def forward_targets_unassigned (t : Ticket) (adminChatIds : List Int) : List AdminMsgEntry :=
  if t.adminMessages.isEmpty then adminChatIds.map (fun a => { chatId := a, messageId := none })
  else t.adminMessages

/-- Target selection of `forward_customer_message`: once a worker is
assigned (truthy id), only that worker's retained entries (falling back to
a synthetic entry for the worker); before assignment, all retained fan-out
entries or all worker endpoints. -/
def forward_targets (t : Ticket) (adminChatIds : List Int) : List AdminMsgEntry :=
  match t.assignedAdminId with
  | some w =>
    if w ≠ 0 then
      let kept := t.adminMessages.filter (fun e => e.chatId = w)
      if kept.isEmpty then [{ chatId := w, messageId := none }] else kept
    else forward_targets_unassigned t adminChatIds
  | none => forward_targets_unassigned t adminChatIds

/-- Embedding of the text-message loop of `forward_customer_message`:
`attempt1 c` is the message id produced by the reply-anchored send to chat
`c` (`none` when the transport raises), `attempt2 c` the plain retry.  Every
successful send is registered in the reply-correlation index under the pair
(endpoint chat id, message id); failed endpoints are skipped, as is the
falsy chat id `0`. -/
def forward_customer_message (attempt1 attempt2 : Int → Option Int) (adminChatIds : List Int)
    (tid : Int) (t : Ticket) : List ((Int × Int) × RelayEntryVal) :=
  (forward_targets t adminChatIds).filterMap (fun target =>
    if target.chatId = (0 : Int) then none
    else
      match attempt1 target.chatId with
      | some mid => some ((target.chatId, mid), { ticketId := tid, botKey := t.botKey })
      | none =>
        match attempt2 target.chatId with
        | some mid => some ((target.chatId, mid), { ticketId := tid, botKey := t.botKey })
        | none => none)

/-! ## C9 — address-label resolution -/

/-- A saved address of a user profile. -/
structure Address where
  id : String
  label : String
  text : String
deriving DecidableEq

/-- A user profile (the fields `resolve_label_choice` and `address_slots`
read). -/
structure UserProfile where
  name : String
  phone : String
  addresses : List Address
deriving DecidableEq

/-- The reply-keyboard label buttons. -/
def LABEL_HOME : String := "🏠 Home"

/-- The Work button. -/
def LABEL_WORK : String := "🏢 Work"

/-- The Other button. -/
def LABEL_OTHER : String := "📍 Other"

/-- Embedding of `normalize_label`: strips surrounding whitespace. -/
def normalize_label (value : String) : String := strStrip value

/-- Embedding of `is_home_label`. -/
def is_home_label (label : String) : Bool := strLower (normalize_label label) == "home"

/-- Embedding of `is_work_label`. -/
def is_work_label (label : String) : Bool := strLower (normalize_label label) == "work"

/-- The non-Home/non-Work addresses of a profile, as computed both by
`address_slots` (its `others` component) and by the `Other` branch of
`resolve_label_choice`. -/
def other_addresses (user : UserProfile) : List Address :=
  user.addresses.filter (fun a => !(is_home_label a.label) && !(is_work_label a.label))

/-- Embedding of `resolve_label_choice`: the Home/Work buttons map to the
literal labels; the Other button maps to "Other" when the profile has no
non-Home/non-Work address yet and to "Other 2" otherwise; any other choice
(the Custom button flow) resolves to nothing here. -/
def resolve_label_choice (choice : String) (user : UserProfile) : Option String :=
  let label := normalize_label choice
  if label = LABEL_HOME then some "Home"
  else if label = LABEL_WORK then some "Work"
  else if label = LABEL_OTHER then
    some (if (other_addresses user).isEmpty then "Other" else "Other 2")
  else none

/-- Modelled from the spec: the add-address step of the profile flow (absent
from `src/bot.py`, which contains only the resolution and slot helpers)
appends a new `Address` carrying the resolved label to the profile's
address list. -/
def add_address (user : UserProfile) (id label text : String) : UserProfile :=
  { user with addresses := user.addresses ++ [{ id := id, label := label, text := text }] }

/-! ## Helper lemmas -/

theorem lookupKey_setKey_self {α : Type} [DecidableEq α] {β : Type}
    (xs : List (α × β)) (a : α) (v : β) : lookupKey (setKey xs a v) a = some v := by
  induction xs with
  | nil => simp [setKey, lookupKey]
  | cons p rest ih =>
    by_cases h : a = p.1
    · simp [setKey, h, lookupKey]
    · simp [setKey, h, lookupKey, ih]

theorem lookupKey_setKey_ne {α : Type} [DecidableEq α] {β : Type}
    (xs : List (α × β)) (a b : α) (v : β) (h : b ≠ a) :
    lookupKey (setKey xs a v) b = lookupKey xs b := by
  induction xs with
  | nil => simp [setKey, lookupKey, h]
  | cons p rest ih =>
    by_cases ha : a = p.1
    · subst ha
      simp [setKey, lookupKey, h]
    · by_cases hb : b = p.1
      · simp [setKey, ha, lookupKey, hb]
      · simp [setKey, ha, lookupKey, hb, ih]

theorem allocSeq_ids (s : CounterState) (n : Nat) :
    (allocSeq s n).1 = (List.range n).map (fun k : Nat => s.counter + (k : Int) + 1) := by
  induction n generalizing s with
  | zero => simp [allocSeq]
  | succ m ih =>
    simp only [allocSeq, next_ticket_id, save_config, ih, List.range_succ_eq_map,
      List.map_cons, List.map_map]
    refine List.cons_eq_cons.mpr ⟨by push_cast; ring, ?_⟩
    apply List.map_congr_left
    intro k _
    simp only [Function.comp_apply, Nat.succ_eq_add_one]
    push_cast
    ring

theorem allocSeq_counter (s : CounterState) (n : Nat) :
    (allocSeq s n).2.counter = s.counter + n := by
  induction n generalizing s with
  | zero => simp [allocSeq]
  | succ m ih =>
    simp only [allocSeq, next_ticket_id, save_config, ih]
    push_cast
    ring

theorem allocSeq_persisted_eq (s : CounterState) (n : Nat) (h : 0 < n) :
    (allocSeq s n).2.persisted = (allocSeq s n).2.counter := by
  induction n generalizing s with
  | zero => exact absurd h (Nat.lt_irrefl 0)
  | succ m ih =>
    cases m with
    | zero => rfl
    | succ k => exact ih ((next_ticket_id s).2) (Nat.succ_pos k)

theorem reload_counter_eq_of_persisted (s : CounterState) (h : s.persisted = s.counter) :
    reload_counter s = s := by
  cases s
  simp_all [reload_counter]

/-! ## C8 — claim theorem -/

/-- C8: ticket ids issued by any sequence of `next_ticket_id` allocations
are strictly increasing; because `save_config` runs on every allocation the
persisted counter always equals the last issued id, a simulated restart
(`reload_counter`) reproduces the in-memory counter exactly, and every id
issued after the restart is strictly greater than every id issued before —
no id is ever reused. -/
theorem ticket_id_allocation_monotonic (s : CounterState) (n m : Nat) (h : 0 < n) :
    ((allocSeq s n).1).Pairwise (· < ·) ∧
    (allocSeq s n).1.getLast? = some ((allocSeq s n).2.persisted) ∧
    reload_counter ((allocSeq s n).2) = (allocSeq s n).2 ∧
    ∀ x ∈ (allocSeq s n).1, ∀ y ∈ (allocSeq (reload_counter (allocSeq s n).2) m).1, x < y := by
  obtain ⟨k, rfl⟩ : ∃ k, n = k + 1 := ⟨n - 1, (Nat.succ_pred_eq_of_pos h).symm⟩
  refine ⟨?_, ?_, ?_, ?_⟩
  · rw [allocSeq_ids]
    exact (List.pairwise_lt_range _).map _ (fun a b hab => by omega)
  · rw [allocSeq_ids, List.getLast?_map, allocSeq_persisted_eq s _ h, allocSeq_counter]
    simp [List.range_succ]
    ring
  · exact reload_counter_eq_of_persisted _ (allocSeq_persisted_eq s _ h)
  · intro x hx y hy
    rw [allocSeq_ids] at hx
    rw [allocSeq_ids] at hy
    simp only [List.mem_map, List.mem_range] at hx hy
    obtain ⟨a, ha, rfl⟩ := hx
    obtain ⟨b, _, rfl⟩ := hy
    have hc : (reload_counter ((allocSeq s (k + 1)).2)).counter = s.counter + (k + 1 : Nat) := by
      show (allocSeq s (k + 1)).2.persisted = _
      rw [allocSeq_persisted_eq s _ h, allocSeq_counter]
    rw [hc]
    push_cast at ha ⊢
    omega

/-- Witness for C8 at a concrete counter state and sequence lengths. -/
theorem ticket_id_allocation_monotonic_witness :
    (0 < 2 ∧ ((allocSeq ⟨60, 60⟩ 2).1).Pairwise (· < ·)) ∧
    (allocSeq ⟨60, 60⟩ 2).1.getLast? = some ((allocSeq ⟨60, 60⟩ 2).2.persisted) :=
  ⟨⟨by decide, (ticket_id_allocation_monotonic ⟨60, 60⟩ 2 1 (by decide)).1⟩,
    (ticket_id_allocation_monotonic ⟨60, 60⟩ 2 1 (by decide)).2.1⟩

/-! ## C10 — claim theorem -/

/-- C10: `load_json_file` returns the empty mapping for a missing file, for
a JSON parse failure, and for any parsed value that is not a JSON object
(list, string, number, boolean or null); it returns the parsed mapping for
objects.  The function is total, so none of these cases raises. -/
theorem load_json_file_degrades_to_empty :
    load_json_file FileContent.missing = [] ∧
    load_json_file FileContent.invalid = [] ∧
    (∀ j : Json, j.isObj = false → load_json_file (FileContent.parsed j) = []) ∧
    (∀ m, load_json_file (FileContent.parsed (Json.obj m)) = m) := by
  refine ⟨rfl, rfl, ?_, fun m => rfl⟩
  intro j hj
  cases j <;> first | rfl | exact absurd hj (by simp [Json.isObj])

/-- Witness for C10 at a parsed non-object value (a JSON list). -/
theorem load_json_file_degrades_to_empty_witness :
    (Json.arr []).isObj = false ∧ load_json_file (FileContent.parsed (Json.arr [])) = [] :=
  ⟨rfl, load_json_file_degrades_to_empty.2.2.1 (Json.arr []) rfl⟩

/-! ## C4 — counterexample and amended claim -/

/-- C4 counterexample: the ticket-ledger save (`save_ticket_records`)
performs a single in-place write of its backing file, so the save of this
dataset does not follow the Durable Store contract (no temp write, no
atomic rename), refuting the claim that all three persisted datasets do. -/
theorem save_ticket_records_counterexample :
    ¬ followsDurableContract StorePath.ticketRecords save_ticket_records_ops := by
  decide

/-- C4 (amended): saves of the user-profile and profile-session datasets go
through `atomic_write_json` and follow the Durable Store contract — the
existing backing file is copied to a `.bak` path at most once per day (a
second save on the same day performs no backup), the new content is written
to a temporary path and atomically renamed over the original; the
ticket-ledger save instead writes its backing file directly in place. -/
theorem durable_contract_two_of_three :
    (∀ stamps today onDisk,
        followsDurableContract StorePath.users (save_user_ops stamps today onDisk).1) ∧
    (∀ stamps today onDisk,
        followsDurableContract StorePath.sessions
          (save_profile_session_ops stamps today onDisk).1) ∧
    (∀ stamps today (p : StorePath) onDisk, lookupKey stamps p = some today →
        (atomic_write_json stamps today p onDisk).1 =
          [FileOp.writeTmp p, FileOp.renameTmpOverOriginal p]) ∧
    save_ticket_records_ops = [FileOp.writeInPlace StorePath.ticketRecords] ∧
    ¬ followsDurableContract StorePath.ticketRecords save_ticket_records_ops := by
  refine ⟨?_, ?_, ?_, rfl, save_ticket_records_counterexample⟩
  · intro stamps today onDisk
    unfold save_user_ops atomic_write_json maybe_backup followsDurableContract
    split_ifs <;> simp
  · intro stamps today onDisk
    unfold save_profile_session_ops atomic_write_json maybe_backup followsDurableContract
    split_ifs <;> simp
  · intro stamps today p onDisk hstamp
    unfold atomic_write_json maybe_backup
    simp [hstamp]

/-- Witness for C4 (amended) at a concrete stamp table and day. -/
theorem durable_contract_two_of_three_witness :
    followsDurableContract StorePath.users (save_user_ops [] "2026-10-12" true).1 ∧
    (lookupKey [(StorePath.users, "2026-10-12")] StorePath.users = some "2026-10-12" ∧
      (atomic_write_json [(StorePath.users, "2026-10-12")] "2026-10-12" StorePath.users true).1 =
        [FileOp.writeTmp StorePath.users, FileOp.renameTmpOverOriginal StorePath.users]) :=
  ⟨durable_contract_two_of_three.1 [] "2026-10-12" true,
    by decide,
    durable_contract_two_of_three.2.2.1 [(StorePath.users, "2026-10-12")] "2026-10-12"
      StorePath.users true (by decide)⟩

/-! ## C5 — rate limiter claim -/

/-- C5: with the limiter enabled, `check_rate_limit` prunes the user's
timestamps to the window and allows (appending the current time) exactly
when the pruned count is below the maximum, otherwise limits with
retry-after = oldest retained + window − now; the 30-minute/2-ticket
scenario gives allow, allow, limited with positive retry-after, and allow
again once the window has fully elapsed; and the check always allows when
the window or the maximum is configured to zero. -/
theorem check_rate_limit_spec :
    (∀ (cfg : RateCfg) (hist : List ℚ) (now : ℚ), rateLimitEnabled cfg = true →
      ((((hist.filter (fun t => now - rateLimitSeconds cfg ≤ t)).length : Int) <
          cfg.maxTickets →
        check_rate_limit cfg hist now =
          (RateResult.allowed,
            hist.filter (fun t => now - rateLimitSeconds cfg ≤ t) ++ [now])) ∧
      (cfg.maxTickets ≤
          ((hist.filter (fun t => now - rateLimitSeconds cfg ≤ t)).length : Int) →
        check_rate_limit cfg hist now =
          (RateResult.limited
            ((hist.filter (fun t => now - rateLimitSeconds cfg ≤ t)).headD 0 +
              rateLimitSeconds cfg - now),
            hist.filter (fun t => now - rateLimitSeconds cfg ≤ t))))) ∧
    (check_rate_limit ⟨30, 2⟩ [] 0 = (RateResult.allowed, [0]) ∧
      check_rate_limit ⟨30, 2⟩ [0] 300 = (RateResult.allowed, [0, 300]) ∧
      check_rate_limit ⟨30, 2⟩ [0, 300] 600 = (RateResult.limited 1200, [0, 300]) ∧
      (0 : ℚ) < 1200 ∧
      check_rate_limit ⟨30, 2⟩ [0, 300] 2101 = (RateResult.allowed, [2101])) ∧
    (∀ (wm : ℚ) (mx : Int) (hist : List ℚ) (now : ℚ), wm = 0 ∨ mx = 0 →
      (check_rate_limit ⟨wm, mx⟩ hist now).1 = RateResult.allowed) := by
  refine ⟨?_, ⟨?_, ?_, ?_, by norm_num, ?_⟩, ?_⟩
  · intro cfg hist now hen
    constructor
    · intro hlt
      simp only [check_rate_limit, hen, not_true_eq_false, if_false, not_le.mpr hlt, ite_false]
    · intro hge
      simp only [check_rate_limit, hen, not_true_eq_false, if_false, hge, ite_true, if_pos]
  · norm_num [check_rate_limit, rateLimitEnabled, rateLimitSeconds, List.filter]
  · norm_num [check_rate_limit, rateLimitEnabled, rateLimitSeconds, List.filter]
  · norm_num [check_rate_limit, rateLimitEnabled, rateLimitSeconds, List.filter]
  · norm_num [check_rate_limit, rateLimitEnabled, rateLimitSeconds, List.filter]
  · intro wm mx hist now h
    rcases h with h | h <;> subst h <;>
      simp [check_rate_limit, rateLimitEnabled, rateLimitSeconds]

/-- Witness for C5: the limiter is enabled at the default configuration and
the second submission of the scenario is allowed; a zero window always
allows. -/
theorem check_rate_limit_spec_witness :
    (rateLimitEnabled ⟨30, 2⟩ = true ∧
      ((([(0 : ℚ)].filter (fun t => (300 : ℚ) - rateLimitSeconds ⟨30, 2⟩ ≤ t)).length : Int) <
        (2 : Int)) ∧
      check_rate_limit ⟨30, 2⟩ [0] 300 = (RateResult.allowed, [0, 300])) ∧
    ((0 : ℚ) = 0 ∨ (2 : Int) = 0) ∧
    (check_rate_limit ⟨0, 2⟩ [5] 10).1 = RateResult.allowed := by
  have hen : rateLimitEnabled ⟨30, 2⟩ = true := by
    norm_num [rateLimitEnabled, rateLimitSeconds]
  have hlt : ((([(0 : ℚ)].filter (fun t => (300 : ℚ) - rateLimitSeconds ⟨30, 2⟩ ≤ t)).length :
      Int) < (2 : Int)) := by
    norm_num [rateLimitSeconds, List.filter]
  refine ⟨⟨hen, hlt, ?_⟩, Or.inl rfl, ?_⟩
  · have h := (check_rate_limit_spec.1 ⟨30, 2⟩ [0] 300 hen).1 hlt
    rw [h]
    norm_num [rateLimitSeconds, List.filter]
  · exact check_rate_limit_spec.2.2 0 2 [5] 10 (Or.inl rfl)

/-! ## C6 — limited-branch counterexample and amended claim -/

theorem check_rate_limit_retry_nonneg (cfg : RateCfg) (hist : List ℚ) (now retry : ℚ)
    (h' : List ℚ) (hlim : check_rate_limit cfg hist now = (RateResult.limited retry, h')) :
    0 ≤ retry := by
  by_cases hen : rateLimitEnabled cfg = true
  · simp only [check_rate_limit, hen, not_true_eq_false, if_false] at hlim
    split at hlim
    next hge =>
      have hmax : 0 < cfg.maxTickets := by
        unfold rateLimitEnabled at hen
        simp only [Bool.and_eq_true, decide_eq_true_eq] at hen
        exact hen.2
      have hne : hist.filter (fun t => now - rateLimitSeconds cfg ≤ t) ≠ [] := by
        intro hnil
        rw [hnil] at hge
        simp only [List.length_nil, Nat.cast_zero] at hge
        omega
      have hd : (hist.filter (fun t => now - rateLimitSeconds cfg ≤ t)).headD 0 ∈
          hist.filter (fun t => now - rateLimitSeconds cfg ≤ t) := by
        rw [List.headD_eq_head?, List.head?_eq_head hne, Option.getD_some]
        exact List.head_mem hne
      have hge2 : now - rateLimitSeconds cfg ≤
          (hist.filter (fun t => now - rateLimitSeconds cfg ≤ t)).headD 0 :=
        of_decide_eq_true (List.mem_filter.mp hd).2
      injection hlim with h1 h2
      injection h1 with h1
      rw [← h1]
      linarith
    next => simp at hlim
  · simp [check_rate_limit, hen] at hlim

theorem ceil_eq_floor_add_one_of_not_int (x : ℚ) (h : ¬ ∃ k : Int, x = (k : ℚ)) :
    (⌈x⌉ : Int) = ⌊x⌋ + 1 := by
  rw [Int.ceil_eq_iff]
  constructor
  · push_cast
    rcases lt_or_eq_of_le (Int.floor_le x) with h2 | h2
    · simpa using h2
    · exact absurd ⟨⌊x⌋, h2.symm⟩ h
  · push_cast
    exact (Int.lt_floor_add_one x).le

/-- C6 counterexample: at the default 30-minute/2-ticket configuration with
recorded timestamps [320, 1000] and now = 2000, the limiter returns
retry-after 120 seconds; the ceiling of 120/60 is 2 minutes but the
yes-branch reports 3, refuting the claim that the reported duration equals
the ceiling of retryAfterSeconds / 60. -/
theorem limited_minutes_counterexample :
    check_rate_limit ⟨30, 2⟩ [320, 1000] 2000 = (RateResult.limited 120, [320, 1000]) ∧
    (continue_yes_branch ⟨30, 2⟩ [320, 1000] 2000).1.limitedMinutes = some 3 ∧
    (⌈(120 : ℚ) / 60⌉ : Int) = 2 ∧
    some (3 : Int) ≠ some (⌈(120 : ℚ) / 60⌉ : Int) := by
  have h1 : check_rate_limit ⟨30, 2⟩ [320, 1000] 2000 =
      (RateResult.limited 120, [320, 1000]) := by
    norm_num [check_rate_limit, rateLimitEnabled, rateLimitSeconds, List.filter]
  have h2 : (⌈(120 : ℚ) / 60⌉ : Int) = 2 := by norm_num
  refine ⟨h1, ?_, h2, by rw [h2]; decide⟩
  simp only [continue_yes_branch, h1]
  norm_num [pyInt]

/-- C6 (amended): when the user confirms at the continue stage and the rate
limiter returns limited, the conversation session is cleared, no ticket is
created, and the reported retry duration is `⌊retryAfter / 60⌋ + 1` minutes
— equal to the ceiling of retryAfter / 60 whenever retryAfter is not an
exact multiple of 60 seconds, and one minute more than that ceiling when it
is. -/
theorem limited_branch_reports_floor_plus_one (cfg : RateCfg) (hist : List ℚ)
    (now retry : ℚ) (h' : List ℚ)
    (hlim : check_rate_limit cfg hist now = (RateResult.limited retry, h')) :
    (continue_yes_branch cfg hist now).1 =
      { limitedMinutes := some (⌊retry / 60⌋ + 1), sessionCleared := true,
        ticketCreated := false } ∧
    ((∃ k : Int, retry / 60 = (k : ℚ)) → ⌊retry / 60⌋ + 1 = ⌈retry / 60⌉ + 1) ∧
    (¬ (∃ k : Int, retry / 60 = (k : ℚ)) → ⌊retry / 60⌋ + 1 = ⌈retry / 60⌉) := by
  have h0 : 0 ≤ retry := check_rate_limit_retry_nonneg cfg hist now retry h' hlim
  refine ⟨?_, ?_, ?_⟩
  · simp only [continue_yes_branch, hlim]
    have : pyInt (retry / 60 + 1) = ⌊retry / 60⌋ + 1 := by
      rw [pyInt, if_pos (by positivity), Int.floor_add_one]
    rw [this]
  · rintro ⟨k, hk⟩
    rw [hk, Int.floor_intCast, Int.ceil_intCast]
  · intro hnot
    rw [ceil_eq_floor_add_one_of_not_int _ hnot]

/-- Witness for C6 (amended) at the counterexample's concrete limited call. -/
theorem limited_branch_reports_floor_plus_one_witness :
    check_rate_limit ⟨30, 2⟩ [320, 1000] 2000 = (RateResult.limited 120, [320, 1000]) ∧
    (continue_yes_branch ⟨30, 2⟩ [320, 1000] 2000).1 =
      { limitedMinutes := some (⌊(120 : ℚ) / 60⌋ + 1), sessionCleared := true,
        ticketCreated := false } := by
  have h1 : check_rate_limit ⟨30, 2⟩ [320, 1000] 2000 =
      (RateResult.limited 120, [320, 1000]) := by
    norm_num [check_rate_limit, rateLimitEnabled, rateLimitSeconds, List.filter]
  exact ⟨h1, (limited_branch_reports_floor_plus_one ⟨30, 2⟩ [320, 1000] 2000 120
    [320, 1000] h1).1⟩

/-! ## C9 — address-label resolution claim -/

theorem other_addresses_add_other (user : UserProfile) (aid atext : String) :
    other_addresses (add_address user aid "Other" atext) =
      other_addresses user ++ [⟨aid, "Other", atext⟩] := by
  have hx : (!(is_home_label "Other") && !(is_work_label "Other")) = true := by decide
  unfold other_addresses add_address
  rw [List.filter_append]
  simp [List.filter, hx]

/-- C9: `resolve_label_choice` maps the Home and Work buttons to the literal
labels "Home" and "Work"; the Other button resolves to "Other" when the
profile has no address whose label is neither Home nor Work and to
"Other 2" otherwise; hence resolving "Other", adding the address, and
resolving "Other" again yields "Other" then "Other 2", and the first
"Other" address is still present afterwards (no silent overwrite). -/
theorem resolve_label_choice_spec :
    (∀ user : UserProfile,
      resolve_label_choice LABEL_HOME user = some "Home" ∧
      resolve_label_choice LABEL_WORK user = some "Work") ∧
    (∀ user : UserProfile, other_addresses user = [] →
      resolve_label_choice LABEL_OTHER user = some "Other") ∧
    (∀ user : UserProfile, other_addresses user ≠ [] →
      resolve_label_choice LABEL_OTHER user = some "Other 2") ∧
    (∀ (user : UserProfile) (aid atext : String), other_addresses user = [] →
      resolve_label_choice LABEL_OTHER user = some "Other" ∧
      resolve_label_choice LABEL_OTHER (add_address user aid "Other" atext) =
        some "Other 2" ∧
      (⟨aid, "Other", atext⟩ : Address) ∈ (add_address user aid "Other" atext).addresses) := by
  have hother : ∀ user : UserProfile, resolve_label_choice LABEL_OTHER user =
      some (if (other_addresses user).isEmpty then "Other" else "Other 2") := by
    intro user
    unfold resolve_label_choice
    rw [if_neg (by decide), if_neg (by decide), if_pos (by decide)]
  have hempty : ∀ user : UserProfile, other_addresses user = [] →
      resolve_label_choice LABEL_OTHER user = some "Other" := by
    intro user h
    rw [hother, h]
    rfl
  have hfull : ∀ user : UserProfile, other_addresses user ≠ [] →
      resolve_label_choice LABEL_OTHER user = some "Other 2" := by
    intro user h
    rw [hother]
    match hl : other_addresses user with
    | [] => exact absurd hl h
    | x :: xs => rfl
  refine ⟨?_, hempty, hfull, ?_⟩
  · intro user
    constructor
    · unfold resolve_label_choice
      rw [if_pos (by decide)]
    · unfold resolve_label_choice
      rw [if_neg (by decide), if_pos (by decide)]
  · intro user aid atext h
    refine ⟨hempty user h, ?_, by simp [add_address]⟩
    apply hfull
    rw [other_addresses_add_other, h]
    simp

/-- Witness for C9 at a concrete profile holding only a Home address. -/
theorem resolve_label_choice_spec_witness :
    other_addresses ⟨"Jane", "555", [⟨"a1", "Home", "12 Main St"⟩]⟩ = [] ∧
    resolve_label_choice LABEL_OTHER ⟨"Jane", "555", [⟨"a1", "Home", "12 Main St"⟩]⟩ =
      some "Other" ∧
    resolve_label_choice LABEL_OTHER
      (add_address ⟨"Jane", "555", [⟨"a1", "Home", "12 Main St"⟩]⟩ "a2" "Other" "9 Side St") =
      some "Other 2" := by
  have h : other_addresses ⟨"Jane", "555", [⟨"a1", "Home", "12 Main St"⟩]⟩ = [] := by decide
  obtain ⟨h1, h2, -⟩ := resolve_label_choice_spec.2.2.2
    ⟨"Jane", "555", [⟨"a1", "Home", "12 Main St"⟩]⟩ "a2" "9 Side St" h
  exact ⟨h, h1, h2⟩

/-! ## C7 — relay claim -/

theorem forward_targets_assigned (t : Ticket) (ids : List Int) (w : Int)
    (h : t.assignedAdminId = some w) (hw : w ≠ 0) :
    ∀ e ∈ forward_targets t ids, e.chatId = w := by
  intro e he
  simp only [forward_targets, h] at he
  rw [if_pos hw] at he
  by_cases hk : (t.adminMessages.filter (fun e => e.chatId = w)).isEmpty
  · rw [if_pos hk] at he
    simp only [List.mem_singleton] at he
    rw [he]
  · rw [if_neg hk] at he
    exact of_decide_eq_true (List.mem_filter.mp he).2

theorem forward_mem_elim (a1 a2 : Int → Option Int) (ids : List Int) (tid : Int) (t : Ticket)
    (e : (Int × Int) × RelayEntryVal) (he : e ∈ forward_customer_message a1 a2 ids tid t) :
    ∃ target ∈ forward_targets t ids, target.chatId ≠ 0 ∧ e.1.1 = target.chatId ∧
      e.2 = { ticketId := tid, botKey := t.botKey } ∧
      (a1 target.chatId = some e.1.2 ∨
        (a1 target.chatId = none ∧ a2 target.chatId = some e.1.2)) := by
  unfold forward_customer_message at he
  obtain ⟨target, ht, hf⟩ := List.mem_filterMap.mp he
  refine ⟨target, ht, ?_⟩
  by_cases h0 : target.chatId = (0 : Int)
  · rw [if_pos h0] at hf
    cases hf
  · rw [if_neg h0] at hf
    cases ha : a1 target.chatId with
    | some mid =>
      rw [ha] at hf
      injection hf with hf
      subst hf
      exact ⟨h0, rfl, rfl, Or.inl rfl⟩
    | none =>
      rw [ha] at hf
      cases hb : a2 target.chatId with
      | some mid =>
        rw [hb] at hf
        injection hf with hf
        subst hf
        exact ⟨h0, rfl, rfl, Or.inr ⟨rfl, rfl⟩⟩
      | none =>
        rw [hb] at hf
        cases hf

theorem forward_all_success (ids : List Int) (tid : Int) (t : Ticket) (mid : Int → Int) :
    forward_customer_message (fun c => some (mid c)) (fun _ => none) ids tid t =
      ((forward_targets t ids).filter (fun e => !(e.chatId == 0))).map
        (fun e => ((e.chatId, mid e.chatId),
          ({ ticketId := tid, botKey := t.botKey } : RelayEntryVal))) := by
  unfold forward_customer_message
  induction forward_targets t ids with
  | nil => rfl
  | cons x xs ih =>
    by_cases h0 : x.chatId = (0 : Int)
    · simp [List.filterMap_cons, List.filter_cons, h0, ih]
    · simp [List.filterMap_cons, List.filter_cons, h0, ih]

/-- C7: once a worker is assigned, `forward_customer_message` delivers only
to that worker's endpoint (through whatever relay entries are retained for
it); before any assignment it delivers to the retained fan-out entries, or
to every configured worker endpoint when none are retained; and every
successfully relayed copy is registered in the reply-correlation index
under its endpoint chat id and the message id the transport returned for
it, carrying the ticket id and bot key. -/
theorem forward_customer_message_spec :
    (∀ (t : Ticket) (ids : List Int) (tid w : Int) (a1 a2 : Int → Option Int),
      t.assignedAdminId = some w → w ≠ 0 →
      ∀ e ∈ forward_customer_message a1 a2 ids tid t, e.1.1 = w) ∧
    (∀ (t : Ticket) (ids : List Int) (tid : Int) (mid : Int → Int),
      t.assignedAdminId = none → t.adminMessages = [] → (∀ c ∈ ids, c ≠ 0) →
      (forward_customer_message (fun c => some (mid c)) (fun _ => none) ids tid t).map
        (fun e => e.1.1) = ids) ∧
    (∀ (t : Ticket) (ids : List Int) (tid : Int) (mid : Int → Int),
      t.assignedAdminId = none → t.adminMessages ≠ [] →
      (∀ e ∈ t.adminMessages, e.chatId ≠ 0) →
      (forward_customer_message (fun c => some (mid c)) (fun _ => none) ids tid t).map
        (fun e => e.1.1) = t.adminMessages.map (fun e => e.chatId)) ∧
    (∀ (t : Ticket) (ids : List Int) (tid : Int) (a1 a2 : Int → Option Int),
      ∀ e ∈ forward_customer_message a1 a2 ids tid t,
        e.2 = { ticketId := tid, botKey := t.botKey } ∧
        (a1 e.1.1 = some e.1.2 ∨ (a1 e.1.1 = none ∧ a2 e.1.1 = some e.1.2))) := by
  refine ⟨?_, ?_, ?_, ?_⟩
  · intro t ids tid w a1 a2 hass hw e he
    obtain ⟨target, ht, -, hchat, -, -⟩ := forward_mem_elim a1 a2 ids tid t e he
    rw [hchat]
    exact forward_targets_assigned t ids w hass hw target ht
  · intro t ids tid mid hass hmsgs hnz
    rw [forward_all_success]
    have htargets : forward_targets t ids =
        ids.map (fun a => { chatId := a, messageId := none }) := by
      unfold forward_targets forward_targets_unassigned
      rw [hass, hmsgs]
      simp
    rw [htargets, List.filter_map]
    have hself : ids.filter ((fun e : AdminMsgEntry => !(e.chatId == 0)) ∘
        (fun a => { chatId := a, messageId := none })) = ids := by
      apply List.filter_eq_self.mpr
      intro a ha
      simp [hnz a ha]
    rw [hself, List.map_map, List.map_map]
    exact List.map_id ids
  · intro t ids tid mid hass hmsgs hnz
    rw [forward_all_success]
    have htargets : forward_targets t ids = t.adminMessages := by
      unfold forward_targets forward_targets_unassigned
      rw [hass]
      rw [if_neg (by simp [List.isEmpty_iff, hmsgs])]
    rw [htargets]
    have hself : t.adminMessages.filter (fun e => !(e.chatId == 0)) = t.adminMessages := by
      apply List.filter_eq_self.mpr
      intro e hemem
      simp [hnz e hemem]
    rw [hself, List.map_map]
    simp [Function.comp]
  · intro t ids tid a1 a2 e he
    obtain ⟨target, -, -, hchat, hval, hsend⟩ := forward_mem_elim a1 a2 ids tid t e he
    rw [hchat]
    exact ⟨hval, hsend⟩

/-- Witness for C7: a concrete ticket assigned to worker 10 with retained
entries for workers 10 and 11 relays a customer text to worker 10's
endpoint, registered under message id 77 = 10 + 67; the claim theorem
applied at this element confirms the endpoint is worker 10. -/
theorem forward_customer_message_spec_witness :
    (⟨7, "Pizza", [], "open", [⟨10, some 40⟩, ⟨11, some 41⟩], "food", "Food",
        some 10, some "A", some "T", false⟩ : Ticket).assignedAdminId = some 10 ∧
    (10 : Int) ≠ 0 ∧
    (((10 : Int), (77 : Int)), ({ ticketId := 7, botKey := "food" } : RelayEntryVal)) ∈
      forward_customer_message (fun c => some (c + 67)) (fun _ => none) [10, 11] 7
        ⟨7, "Pizza", [], "open", [⟨10, some 40⟩, ⟨11, some 41⟩], "food", "Food",
          some 10, some "A", some "T", false⟩ ∧
    ((((10 : Int), (77 : Int)),
      ({ ticketId := 7, botKey := "food" } : RelayEntryVal)) :
        (Int × Int) × RelayEntryVal).1.1 = 10 :=
  ⟨rfl, by decide, by decide,
    forward_customer_message_spec.1
      ⟨7, "Pizza", [], "open", [⟨10, some 40⟩, ⟨11, some 41⟩], "food", "Food",
        some 10, some "A", some "T", false⟩ [10, 11] 7 10
      (fun c => some (c + 67)) (fun _ => none) rfl (by decide) _ (by decide)⟩

/-! ## C1 — assignment claim -/

theorem assign_ticket_missing (st : SysState) (now : String) (tid w : Int) (a : String)
    (h : lookupKey st.tickets tid = none) :
    assign_ticket st now tid w a = (⟨false, some "not_found"⟩, st) := by
  unfold assign_ticket
  rw [h]

theorem assign_ticket_not_open (st : SysState) (now : String) (tid w : Int) (a : String)
    (t : Ticket) (h : lookupKey st.tickets tid = some t) (hs : t.status ≠ "open") :
    assign_ticket st now tid w a = (⟨false, some "not_found"⟩, st) := by
  unfold assign_ticket
  rw [h]
  dsimp only
  rw [if_pos hs]

theorem assign_ticket_held (st : SysState) (now : String) (tid w : Int) (a : String)
    (t : Ticket) (o : Int) (h : lookupKey st.tickets tid = some t) (hs : t.status = "open")
    (ho : t.assignedAdminId = some o) (hoz : o ≠ 0) (how : o ≠ w) :
    assign_ticket st now tid w a = (⟨false, some "assigned"⟩, st) := by
  unfold assign_ticket
  rw [h]
  dsimp only
  rw [if_neg (by simp [hs]),
    if_pos (show ownerBlocks t.assignedAdminId w = true by simp [ownerBlocks, ho, hoz, how])]

theorem assign_ticket_success (st : SysState) (now : String) (tid w : Int) (a : String)
    (t : Ticket) (h : lookupKey st.tickets tid = some t) (hs : t.status = "open")
    (hblock : ownerBlocks t.assignedAdminId w = false) :
    assign_ticket st now tid w a =
      (⟨true, none⟩,
       { st with
          tickets := setKey st.tickets tid
            { t with assignedAdminId := some w, assignedAlias := some a,
                     acceptedAt := some now },
          records := update_ticket_record st.records tid (fun r =>
            { r with assignedAdminId := some w, assignedAlias := some a,
                     acceptedAt := some now }) }) := by
  unfold assign_ticket
  rw [h]
  dsimp only
  rw [if_neg (by simp [hs]), if_neg (by simp [hblock])]

theorem runAssigns_owned (now : String) (tid : Int) (calls : List (Int × String)) :
    ∀ (st : SysState) (t : Ticket) (w : Int), lookupKey st.tickets tid = some t →
      t.status = "open" → t.assignedAdminId = some w → w ≠ 0 →
      (runAssigns now tid st calls).1 = calls.map (fun c => decide (c.1 = w)) ∧
      ∃ t', lookupKey (runAssigns now tid st calls).2.tickets tid = some t' ∧
        t'.status = "open" ∧ t'.assignedAdminId = some w := by
  induction calls with
  | nil =>
    intro st t w h hs ho hw
    exact ⟨rfl, t, h, hs, ho⟩
  | cons c rest ih =>
    intro st t w h hs ho hw
    by_cases hcw : c.1 = w
    · subst hcw
      have hblock : ownerBlocks t.assignedAdminId c.1 = false := by
        simp [ownerBlocks, ho]
      have hstep := assign_ticket_success st now tid c.1 c.2 t h hs hblock
      simp only [runAssigns, hstep]
      obtain ⟨h1, h2⟩ := ih
        { st with
            tickets := setKey st.tickets tid
              { t with assignedAdminId := some c.1, assignedAlias := some c.2,
                       acceptedAt := some now },
            records := update_ticket_record st.records tid (fun r =>
              { r with assignedAdminId := some c.1, assignedAlias := some c.2,
                       acceptedAt := some now }) }
        { t with assignedAdminId := some c.1, assignedAlias := some c.2,
                 acceptedAt := some now }
        c.1 (lookupKey_setKey_self st.tickets tid _) hs rfl hw
      exact ⟨by simp [h1], h2⟩
    · have hstep := assign_ticket_held st now tid c.1 c.2 t w h hs ho hw
        (fun he => hcw he.symm)
      simp only [runAssigns, hstep]
      obtain ⟨h1, h2⟩ := ih st t w h hs ho hw
      exact ⟨by simp [h1, hcw], h2⟩

/-- C1: `assign_ticket` rejects with `not_found` when the ticket is missing
or not open and with `assigned` when a different worker already holds it;
otherwise it succeeds and stamps owner, alias and acceptance time.  From an
open unassigned ticket, for any sequence of assign calls the first call
succeeds and thereafter exactly the calls by that first worker succeed (so
of two distinct workers at most one ever succeeds, the owner is whichever
succeeded first, and replays by the owner keep succeeding), and the final
owner is the first caller. -/
theorem assign_ticket_spec :
    (∀ (st : SysState) (now : String) (tid w : Int) (a : String),
      lookupKey st.tickets tid = none →
      assign_ticket st now tid w a = (⟨false, some "not_found"⟩, st)) ∧
    (∀ (st : SysState) (now : String) (tid w : Int) (a : String) (t : Ticket),
      lookupKey st.tickets tid = some t → t.status ≠ "open" →
      assign_ticket st now tid w a = (⟨false, some "not_found"⟩, st)) ∧
    (∀ (st : SysState) (now : String) (tid w : Int) (a : String) (t : Ticket) (o : Int),
      lookupKey st.tickets tid = some t → t.status = "open" →
      t.assignedAdminId = some o → o ≠ 0 → o ≠ w →
      assign_ticket st now tid w a = (⟨false, some "assigned"⟩, st)) ∧
    (∀ (st : SysState) (now : String) (tid w : Int) (a : String) (t : Ticket),
      lookupKey st.tickets tid = some t → t.status = "open" →
      ownerBlocks t.assignedAdminId w = false →
      (assign_ticket st now tid w a).1 = ⟨true, none⟩ ∧
      lookupKey (assign_ticket st now tid w a).2.tickets tid =
        some { t with assignedAdminId := some w, assignedAlias := some a,
                      acceptedAt := some now }) ∧
    (∀ (st : SysState) (now : String) (tid w1 : Int) (a1 : String)
        (rest : List (Int × String)) (t : Ticket),
      lookupKey st.tickets tid = some t → t.status = "open" →
      t.assignedAdminId = none → w1 ≠ 0 →
      (runAssigns now tid st ((w1, a1) :: rest)).1 =
        true :: rest.map (fun c => decide (c.1 = w1)) ∧
      ∃ t', lookupKey (runAssigns now tid st ((w1, a1) :: rest)).2.tickets tid = some t' ∧
        t'.assignedAdminId = some w1) := by
  refine ⟨assign_ticket_missing, assign_ticket_not_open, assign_ticket_held, ?_, ?_⟩
  · intro st now tid w a t h hs hblock
    rw [assign_ticket_success st now tid w a t h hs hblock]
    exact ⟨rfl, lookupKey_setKey_self st.tickets tid _⟩
  · intro st now tid w1 a1 rest t h hs ho hw
    have hblock : ownerBlocks t.assignedAdminId w1 = false := by
      simp [ownerBlocks, ho]
    have hstep := assign_ticket_success st now tid w1 a1 t h hs hblock
    simp only [runAssigns, hstep]
    obtain ⟨h1, t', h2, _, h3⟩ := runAssigns_owned now tid rest
      { st with
          tickets := setKey st.tickets tid
            { t with assignedAdminId := some w1, assignedAlias := some a1,
                     acceptedAt := some now },
          records := update_ticket_record st.records tid (fun r =>
            { r with assignedAdminId := some w1, assignedAlias := some a1,
                     acceptedAt := some now }) }
      { t with assignedAdminId := some w1, assignedAlias := some a1, acceptedAt := some now }
      w1 (lookupKey_setKey_self st.tickets tid _) hs rfl hw
    exact ⟨by simp [h1], t', h2, h3⟩

/-- Witness for C1: a concrete open unassigned ticket; worker 10 accepts,
worker 11 is rejected, worker 10's replay succeeds. -/
theorem assign_ticket_spec_witness :
    lookupKey [((1 : Int),
      ({ chatId := 55, category := "Pizza", answers := [], status := "open",
         adminMessages := [], botKey := "food", service := "Food" } : Ticket))] 1 =
      some { chatId := 55, category := "Pizza", answers := [], status := "open",
             adminMessages := [], botKey := "food", service := "Food" } ∧
    (runAssigns "T1" 1
      ⟨[(1, { chatId := 55, category := "Pizza", answers := [], status := "open",
              adminMessages := [], botKey := "food", service := "Food" })],
       [(1, { ticketId := 1, status := "open", createdAt := "T0" })], [(55, 1)], []⟩
      [(10, "A"), (11, "B"), (10, "A")]).1 = [true, false, true] := by
  refine ⟨rfl, ?_⟩
  have h := (assign_ticket_spec.2.2.2.2
    ⟨[(1, { chatId := 55, category := "Pizza", answers := [], status := "open",
            adminMessages := [], botKey := "food", service := "Food" })],
     [(1, { ticketId := 1, status := "open", createdAt := "T0" })], [(55, 1)], []⟩
    "T1" 1 10 "A" [(11, "B"), (10, "A")]
    { chatId := 55, category := "Pizza", answers := [], status := "open",
      adminMessages := [], botKey := "food", service := "Food" }
    rfl rfl rfl (by decide)).1
  rw [h]
  decide

/-! ## C2 — ban-via-ticket counterexample and amended claim -/

/-- C2 counterexample: two open tickets #9 and #10 share origin chat 77;
the ban button on ticket #9 bans the chat and closes #9, but ticket #10
stays open and its ledger record keeps no closeType — refuting the claim
that banning via a ticket closes every open ticket of the chat. -/
theorem ban_ticket_callback_counterexample :
    (ban_ticket_callback_core
      ⟨[(9, { chatId := 77, category := "A", answers := [], status := "open",
              adminMessages := [], botKey := "food", service := "Food" }),
        (10, { chatId := 77, category := "B", answers := [], status := "open",
               adminMessages := [], botKey := "food", service := "Food" })],
       [(9, { ticketId := 9, status := "open", createdAt := "T0" }),
        (10, { ticketId := 10, status := "open", createdAt := "T0" })],
       [(77, 10)], []⟩ "T1" "Admin" 9).1 = true ∧
    (77 : Int) ∈ (ban_ticket_callback_core
      ⟨[(9, { chatId := 77, category := "A", answers := [], status := "open",
              adminMessages := [], botKey := "food", service := "Food" }),
        (10, { chatId := 77, category := "B", answers := [], status := "open",
               adminMessages := [], botKey := "food", service := "Food" })],
       [(9, { ticketId := 9, status := "open", createdAt := "T0" }),
        (10, { ticketId := 10, status := "open", createdAt := "T0" })],
       [(77, 10)], []⟩ "T1" "Admin" 9).2.banned ∧
    (lookupKey (ban_ticket_callback_core
      ⟨[(9, { chatId := 77, category := "A", answers := [], status := "open",
              adminMessages := [], botKey := "food", service := "Food" }),
        (10, { chatId := 77, category := "B", answers := [], status := "open",
               adminMessages := [], botKey := "food", service := "Food" })],
       [(9, { ticketId := 9, status := "open", createdAt := "T0" }),
        (10, { ticketId := 10, status := "open", createdAt := "T0" })],
       [(77, 10)], []⟩ "T1" "Admin" 9).2.tickets 9).map Ticket.status = some "closed" ∧
    (lookupKey (ban_ticket_callback_core
      ⟨[(9, { chatId := 77, category := "A", answers := [], status := "open",
              adminMessages := [], botKey := "food", service := "Food" }),
        (10, { chatId := 77, category := "B", answers := [], status := "open",
               adminMessages := [], botKey := "food", service := "Food" })],
       [(9, { ticketId := 9, status := "open", createdAt := "T0" }),
        (10, { ticketId := 10, status := "open", createdAt := "T0" })],
       [(77, 10)], []⟩ "T1" "Admin" 9).2.tickets 10).map Ticket.status = some "open" ∧
    (lookupKey (ban_ticket_callback_core
      ⟨[(9, { chatId := 77, category := "A", answers := [], status := "open",
              adminMessages := [], botKey := "food", service := "Food" }),
        (10, { chatId := 77, category := "B", answers := [], status := "open",
               adminMessages := [], botKey := "food", service := "Food" })],
       [(9, { ticketId := 9, status := "open", createdAt := "T0" }),
        (10, { ticketId := 10, status := "open", createdAt := "T0" })],
       [(77, 10)], []⟩ "T1" "Admin" 9).2.records 10).map TicketRecord.closeType =
      some none := by
  decide

/-- C2 (amended): the ban button adds the ticket's origin chat to the
banned set and closes exactly the ticket it was pressed on (its record gets
closeType `banned`); every other ticket and record, including other open
tickets of the same chat, is untouched.  Closing every open ticket of a
chat happens only in `close_tickets_for_chat`, the `/ban` command path,
which leaves no open ticket of the chat behind. -/
theorem ban_ticket_closes_only_target :
    (∀ (st : SysState) (now actor : String) (tid : Int) (t : Ticket),
      lookupKey st.tickets tid = some t →
      (ban_ticket_callback_core st now actor tid).1 = true ∧
      t.chatId ∈ (ban_ticket_callback_core st now actor tid).2.banned ∧
      lookupKey (ban_ticket_callback_core st now actor tid).2.tickets tid =
        some { t with status := "closed" } ∧
      (∀ j, j ≠ tid →
        lookupKey (ban_ticket_callback_core st now actor tid).2.tickets j =
          lookupKey st.tickets j) ∧
      (∀ j, j ≠ tid →
        lookupKey (ban_ticket_callback_core st now actor tid).2.records j =
          lookupKey st.records j) ∧
      (∀ r : TicketRecord, lookupKey st.records tid = some r →
        lookupKey (ban_ticket_callback_core st now actor tid).2.records tid =
          some { r with status := "closed", closedAt := some now,
                        closeType := some "banned", closedBy := some actor })) ∧
    (∀ (st : SysState) (now : String) (chat : Int) (ct actor : String) (p : Int × Ticket),
      p ∈ (close_tickets_for_chat st now chat ct actor).tickets →
      p.2.chatId = chat → p.2.status ≠ "open") := by
  constructor
  · intro st now actor tid t h
    unfold ban_ticket_callback_core
    rw [h]
    dsimp only
    refine ⟨rfl, ?_, ?_, ?_, ?_, ?_⟩
    · by_cases hb : t.chatId ∈ st.banned
      · simp [hb]
      · simp [hb]
    · exact lookupKey_setKey_self st.tickets tid _
    · intro j hj
      exact lookupKey_setKey_ne st.tickets tid j _ hj
    · intro j hj
      cases hr : lookupKey st.records tid with
      | none => simp [close_ticket_record, hr]
      | some r => simp [close_ticket_record, hr, lookupKey_setKey_ne st.records tid j _ hj]
    · intro r hr
      simp [close_ticket_record, hr, lookupKey_setKey_self]
  · intro st now chat ct actor p hp hchat
    unfold close_tickets_for_chat at hp
    dsimp only at hp
    obtain ⟨q, hq, rfl⟩ := List.mem_map.mp hp
    by_cases hcond : q.2.chatId = chat ∧ q.2.status = "open"
    · simp only [hcond, if_true, and_self, ite_true]
      intro habs
      exact absurd habs (by simp)
    · rw [if_neg hcond]
      intro hopen
      rw [if_neg hcond] at hchat
      exact hcond ⟨hchat, hopen⟩

/-- Witness for C2 (amended) at the counterexample's two-ticket state. -/
theorem ban_ticket_closes_only_target_witness :
    lookupKey [((9 : Int),
        ({ chatId := 77, category := "A", answers := [], status := "open",
           adminMessages := [], botKey := "food", service := "Food" } : Ticket)),
      (10, { chatId := 77, category := "B", answers := [], status := "open",
             adminMessages := [], botKey := "food", service := "Food" })] 9 =
      some { chatId := 77, category := "A", answers := [], status := "open",
             adminMessages := [], botKey := "food", service := "Food" } ∧
    (10 : Int) ≠ 9 ∧
    lookupKey (ban_ticket_callback_core
      ⟨[(9, { chatId := 77, category := "A", answers := [], status := "open",
              adminMessages := [], botKey := "food", service := "Food" }),
        (10, { chatId := 77, category := "B", answers := [], status := "open",
               adminMessages := [], botKey := "food", service := "Food" })],
       [(9, { ticketId := 9, status := "open", createdAt := "T0" }),
        (10, { ticketId := 10, status := "open", createdAt := "T0" })],
       [(77, 10)], []⟩ "T1" "Admin" 9).2.tickets 10 =
      lookupKey [((9 : Int),
        ({ chatId := 77, category := "A", answers := [], status := "open",
           adminMessages := [], botKey := "food", service := "Food" } : Ticket)),
      (10, { chatId := 77, category := "B", answers := [], status := "open",
             adminMessages := [], botKey := "food", service := "Food" })] 10 :=
  ⟨rfl, by decide,
    ((ban_ticket_closes_only_target.1
      ⟨[(9, { chatId := 77, category := "A", answers := [], status := "open",
              adminMessages := [], botKey := "food", service := "Food" }),
        (10, { chatId := 77, category := "B", answers := [], status := "open",
               adminMessages := [], botKey := "food", service := "Food" })],
       [(9, { ticketId := 9, status := "open", createdAt := "T0" }),
        (10, { ticketId := 10, status := "open", createdAt := "T0" })],
       [(77, 10)], []⟩ "T1" "Admin" 9
      { chatId := 77, category := "A", answers := [], status := "open",
        adminMessages := [], botKey := "food", service := "Food" } rfl).2.2.2.1 10
      (by decide))⟩

/-! ## C3 — close idempotence counterexample and amended claim -/

/-- C3 counterexample: ticket #5's ledger record is closed
(`manual_close`) while the in-memory ticket object is absent, as after a
restart; a `/close` attempt then reports success and overwrites the
record's close accounting to `admin_close` by "Bob" — refuting the claim
that a close attempt on a closed id always errors and never mutates. -/
theorem close_command_counterexample :
    (close_command_core
      ⟨[], [(5, { ticketId := 5, status := "closed", createdAt := "T0", chatId := some 77,
                  closeType := some "manual_close", closedBy := some "Alice",
                  closedAt := some "T1" })], [], []⟩ "T2" "Bob" 5 10 "r").1 =
      CloseOutcome.closedOk ∧
    CloseOutcome.closedOk ≠ CloseOutcome.alreadyClosed ∧
    (lookupKey (close_command_core
      ⟨[], [(5, { ticketId := 5, status := "closed", createdAt := "T0", chatId := some 77,
                  closeType := some "manual_close", closedBy := some "Alice",
                  closedAt := some "T1" })], [], []⟩ "T2" "Bob" 5 10 "r").2.records 5).map
      TicketRecord.closeType = some (some "admin_close") ∧
    (lookupKey (close_command_core
      ⟨[], [(5, { ticketId := 5, status := "closed", createdAt := "T0", chatId := some 77,
                  closeType := some "manual_close", closedBy := some "Alice",
                  closedAt := some "T1" })], [], []⟩ "T2" "Bob" 5 10 "r").2.records 5).map
      TicketRecord.closedBy = some (some "Bob") := by
  refine ⟨rfl, by decide, rfl, rfl⟩

/-- C3 (amended): a close attempt is idempotent whenever the in-memory
ticket object is still present — a closed ticket makes `/close` report
already-closed and the close button do nothing, both leaving the state
unchanged — and a close of an id with neither ticket nor record errors with
not-found; but when the ticket object is absent while a (possibly closed)
ledger record exists, `/close` reports success and overwrites the record's
close accounting (closeType, remarks, closedBy, profit, cut, closedAt). -/
theorem close_idempotent_when_ticket_present :
    (∀ (st : SysState) (now actor : String) (tid : Int) (profit : ℚ) (remarks : String)
        (t : Ticket), lookupKey st.tickets tid = some t → t.status = "closed" →
      close_command_core st now actor tid profit remarks = (CloseOutcome.alreadyClosed, st)) ∧
    (∀ (st : SysState) (now actor : String) (tid : Int) (t : Ticket),
      lookupKey st.tickets tid = some t → t.status = "closed" →
      close_ticket_callback_core st now actor tid = (false, st)) ∧
    (∀ (st : SysState) (now actor : String) (tid : Int),
      lookupKey st.tickets tid = none →
      close_ticket_callback_core st now actor tid = (false, st)) ∧
    (∀ (st : SysState) (now actor : String) (tid : Int) (profit : ℚ) (remarks : String),
      lookupKey st.tickets tid = none → lookupKey st.records tid = none →
      close_command_core st now actor tid profit remarks = (CloseOutcome.notFound, st)) ∧
    (∀ (st : SysState) (now actor : String) (tid : Int) (profit : ℚ) (remarks : String)
        (r : TicketRecord), lookupKey st.tickets tid = none →
      lookupKey st.records tid = some r →
      (close_command_core st now actor tid profit remarks).1 = CloseOutcome.closedOk ∧
      lookupKey (close_command_core st now actor tid profit remarks).2.records tid =
        some { r with status := "closed", closedAt := some now,
                      closeType := some "admin_close", remarks := some remarks,
                      closedBy := some actor, profit := some profit,
                      duffCut := some (pyRound2 (profit * DUFF_CUT_RATE)) }) := by
  refine ⟨?_, ?_, ?_, ?_, ?_⟩
  · intro st now actor tid profit remarks t h hs
    simp [close_command_core, h, hs]
  · intro st now actor tid t h hs
    simp [close_ticket_callback_core, h, hs]
  · intro st now actor tid h
    simp [close_ticket_callback_core, h]
  · intro st now actor tid profit remarks h hr
    simp [close_command_core, h, hr, close_ticket_record]
  · intro st now actor tid profit remarks r h hr
    simp [close_command_core, h, hr, close_ticket_record, lookupKey_setKey_self]

/-- Witness for C3 (amended): a present closed ticket makes `/close` a
no-op error, at a concrete one-ticket state. -/
theorem close_idempotent_when_ticket_present_witness :
    lookupKey [((5 : Int),
      ({ chatId := 77, category := "A", answers := [], status := "closed",
         adminMessages := [], botKey := "food", service := "Food" } : Ticket))] 5 =
      some { chatId := 77, category := "A", answers := [], status := "closed",
             adminMessages := [], botKey := "food", service := "Food" } ∧
    close_command_core
      ⟨[(5, { chatId := 77, category := "A", answers := [], status := "closed",
              adminMessages := [], botKey := "food", service := "Food" })],
       [(5, { ticketId := 5, status := "closed", createdAt := "T0" })], [], []⟩
      "T2" "Bob" 5 10 "r" =
      (CloseOutcome.alreadyClosed,
       ⟨[(5, { chatId := 77, category := "A", answers := [], status := "closed",
               adminMessages := [], botKey := "food", service := "Food" })],
        [(5, { ticketId := 5, status := "closed", createdAt := "T0" })], [], []⟩) :=
  ⟨rfl, close_idempotent_when_ticket_present.1
    ⟨[(5, { chatId := 77, category := "A", answers := [], status := "closed",
            adminMessages := [], botKey := "food", service := "Food" })],
     [(5, { ticketId := 5, status := "closed", createdAt := "T0" })], [], []⟩
    "T2" "Bob" 5 10 "r"
    { chatId := 77, category := "A", answers := [], status := "closed",
      adminMessages := [], botKey := "food", service := "Food" } rfl rfl⟩

end Allat50
